import Mathlib

/-!
Verification of the FishNet construction and tensor operations from
pytorch/pytorchcv/models/others/fishnet.py.

Tensors are modelled as nested lists over Int with axes
(batch, channel, height, width).  Python-level construction and call
errors (TypeError, ValueError, AssertionError, IndexError) are modelled
with Except.  The learned convolution primitives from common.py and the
stem block from senet.py are external collaborators: their construction
is modelled by configuration records and their forward semantics by
opaque function parameters, following the specification, which treats
them as black-box transforms.
-/

namespace FishNetVerify

/-- Python-style errors raised during construction or a forward call. -/
inductive PyErr where
  | typeError (msg : String)
  | valueError (msg : String)
  | assertionError (msg : String)
  | indexError (msg : String)
deriving DecidableEq

/-- A spatial plane: a list of rows, each a list of entries. -/
abbrev Plane := List (List Int)

/-- A channel stack of planes. -/
abbrev CTensor := List Plane

/-- A 4D tensor: a batch of channel stacks. -/
abbrev Tensor4 := List CTensor

/-- planeShaped p h w: the plane has h rows, each of width w. -/
def planeShaped (p : Plane) (h w : Nat) : Bool :=
  p.length == h && p.all fun r => r.length == w

/-- ctShaped ct c h w: the channel stack has c planes, each h by w. -/
def ctShaped (ct : CTensor) (c h w : Nat) : Bool :=
  ct.length == c && ct.all fun p => planeShaped p h w

/-- tShaped x b c h w: the tensor has shape (b, c, h, w). -/
def tShaped (x : Tensor4) (b c h w : Nat) : Bool :=
  x.length == b && x.all fun ct => ctShaped ct c h w

/-- Entry of a 4D tensor at (batch, channel, row, column), default 0. -/
def entry (x : Tensor4) (bi c i j : Nat) : Int :=
  (((x.getD bi []).getD c []).getD i []).getD j 0

/-- Elementwise sum of two rows (zip truncates at the shorter row). -/
def rowAdd (r s : List Int) : List Int :=
  (r.zip s).map fun ab => ab.1 + ab.2

/-- Elementwise sum of two planes. -/
def planeAdd (p q : Plane) : Plane :=
  (p.zip q).map fun rs => rowAdd rs.1 rs.2

/-- Sum of a list of planes, as torch Tensor.sum over a dimension
applied to a nonempty slice list. -/
def sumPlanes : List Plane → Plane
  | [] => []
  | [p] => p
  | p :: q :: rest => planeAdd p (sumPlanes (q :: rest))

/-- channel_squeeze on one channel stack (fishnet.py lines 34-37):
x.view(batch, channels_per_group, groups, height, width).sum(dim=2).
Under the contiguous row-major view, view position (k, g) holds input
channel k * groups + g, so output channel k is the elementwise sum of
input channels k * groups + g over g below groups. -/
def channelSqueezeCT (ct : CTensor) (groups : Nat) : CTensor :=
  (List.range (ct.length / groups)).map fun k =>
    sumPlanes ((List.range groups).map fun g => ct.getD (k * groups + g) [])

/-- channel_squeeze (fishnet.py lines 17-37), applied per batch element. -/
def channel_squeeze (x : Tensor4) (groups : Nat) : Tensor4 :=
  x.map fun ct => channelSqueezeCT ct groups

/-- Elementwise sum of two 4D tensors (torch + on equal shapes). -/
def tensorAdd (x y : Tensor4) : Tensor4 :=
  (x.zip y).map fun cc => (cc.1.zip cc.2).map fun pp => planeAdd pp.1 pp.2

theorem planeShaped_iff (p : Plane) (h w : Nat) :
    planeShaped p h w = true ↔ p.length = h ∧ ∀ r ∈ p, r.length = w := by
  simp [planeShaped, List.all_eq_true]

theorem ctShaped_iff (ct : CTensor) (c h w : Nat) :
    ctShaped ct c h w = true ↔
      ct.length = c ∧ ∀ p ∈ ct, planeShaped p h w = true := by
  simp [ctShaped, List.all_eq_true]

theorem tShaped_iff (x : Tensor4) (b c h w : Nat) :
    tShaped x b c h w = true ↔
      x.length = b ∧ ∀ ct ∈ x, ctShaped ct c h w = true := by
  simp [tShaped, List.all_eq_true]

theorem getD_mem_of_lt {α : Type} (l : List α) (d : α) (i : Nat)
    (h : i < l.length) : l.getD i d ∈ l := by
  rw [List.getD_eq_getElem l d h]
  exact List.getElem_mem h

theorem rowAdd_length (r s : List Int) :
    (rowAdd r s).length = min r.length s.length := by
  simp [rowAdd]

theorem rowAdd_getD (r s : List Int) (j : Nat) (hr : j < r.length)
    (hs : j < s.length) :
    (rowAdd r s).getD j 0 = r.getD j 0 + s.getD j 0 := by
  have hlen : j < (rowAdd r s).length := by rw [rowAdd_length]; omega
  rw [List.getD_eq_getElem _ _ hlen, List.getD_eq_getElem _ _ hr,
    List.getD_eq_getElem _ _ hs]
  simp [rowAdd]

theorem planeAdd_length (p q : Plane) :
    (planeAdd p q).length = min p.length q.length := by
  simp [planeAdd]

theorem planeAdd_getD (p q : Plane) (i : Nat) (hp : i < p.length)
    (hq : i < q.length) :
    (planeAdd p q).getD i [] = rowAdd (p.getD i []) (q.getD i []) := by
  have hlen : i < (planeAdd p q).length := by rw [planeAdd_length]; omega
  rw [List.getD_eq_getElem _ _ hlen, List.getD_eq_getElem _ _ hp,
    List.getD_eq_getElem _ _ hq]
  simp [planeAdd]

theorem planeAdd_shaped (p q : Plane) (h w : Nat)
    (hp : planeShaped p h w = true) (hq : planeShaped q h w = true) :
    planeShaped (planeAdd p q) h w = true := by
  rw [planeShaped_iff] at hp hq ⊢
  obtain ⟨hpl, hpr⟩ := hp
  obtain ⟨hql, hqr⟩ := hq
  refine ⟨by rw [planeAdd_length]; omega, ?_⟩
  intro r hr
  simp only [planeAdd, List.mem_map] at hr
  obtain ⟨⟨r1, r2⟩, hmem, rfl⟩ := hr
  have hm := List.of_mem_zip hmem
  rw [rowAdd_length, hpr _ hm.1, hqr _ hm.2]
  omega

theorem planeEntry_add (p q : Plane) (h w i j : Nat)
    (hp : planeShaped p h w = true) (hq : planeShaped q h w = true)
    (hi : i < h) (hj : j < w) :
    ((planeAdd p q).getD i []).getD j 0 =
      (p.getD i []).getD j 0 + (q.getD i []).getD j 0 := by
  rw [planeShaped_iff] at hp hq
  obtain ⟨hpl, hpr⟩ := hp
  obtain ⟨hql, hqr⟩ := hq
  rw [planeAdd_getD p q i (by omega) (by omega)]
  have h1 : j < (p.getD i []).length := by
    rw [hpr _ (getD_mem_of_lt p [] i (by omega))]; omega
  have h2 : j < (q.getD i []).length := by
    rw [hqr _ (getD_mem_of_lt q [] i (by omega))]; omega
  exact rowAdd_getD _ _ j h1 h2

theorem sumPlanes_shaped : ∀ (ps : List Plane) (h w : Nat), ps ≠ [] →
    (∀ p ∈ ps, planeShaped p h w = true) →
    planeShaped (sumPlanes ps) h w = true
  | [], _, _, hne, _ => absurd rfl hne
  | [p], h, w, _, hall => by simpa [sumPlanes] using hall p (by simp)
  | p :: q :: rest, h, w, _, hall => by
    have ih := sumPlanes_shaped (q :: rest) h w (by simp)
      (fun r hr => hall r (List.mem_cons_of_mem p hr))
    exact planeAdd_shaped _ _ _ _ (hall p (by simp)) ih

theorem sumPlanes_entry : ∀ (ps : List Plane) (h w i j : Nat), ps ≠ [] →
    (∀ p ∈ ps, planeShaped p h w = true) → i < h → j < w →
    ((sumPlanes ps).getD i []).getD j 0 =
      (ps.map fun p => (p.getD i []).getD j 0).sum
  | [], _, _, _, _, hne, _, _, _ => absurd rfl hne
  | [p], h, w, i, j, _, _, _, _ => by simp [sumPlanes]
  | p :: q :: rest, h, w, i, j, _, hall, hi, hj => by
    have hrest : ∀ r ∈ q :: rest, planeShaped r h w = true :=
      fun r hr => hall r (List.mem_cons_of_mem p hr)
    have ih := sumPlanes_entry (q :: rest) h w i j (by simp) hrest hi hj
    have hsum := sumPlanes_shaped (q :: rest) h w (by simp) hrest
    have step := planeEntry_add p (sumPlanes (q :: rest)) h w i j
      (hall p (by simp)) hsum hi hj
    calc ((sumPlanes (p :: q :: rest)).getD i []).getD j 0
        = ((planeAdd p (sumPlanes (q :: rest))).getD i []).getD j 0 := rfl
      _ = (p.getD i []).getD j 0 +
            ((sumPlanes (q :: rest)).getD i []).getD j 0 := step
      _ = (p.getD i []).getD j 0 +
            ((q :: rest).map fun r => (r.getD i []).getD j 0).sum := by
            rw [ih]
      _ = ((p :: q :: rest).map fun r => (r.getD i []).getD j 0).sum := by
            simp

theorem getD_map_range {α : Type} (f : Nat → α) (n k : Nat) (d : α)
    (hk : k < n) : ((List.range n).map f).getD k d = f k := by
  have hlen : k < ((List.range n).map f).length := by simpa using hk
  rw [List.getD_eq_getElem _ _ hlen]
  simp

theorem list_range_sum_eq (f : Nat → Int) (n : Nat) :
    ((List.range n).map f).sum = Finset.sum (Finset.range n) f := by
  induction n with
  | zero => simp
  | succ m ih => rw [List.range_succ, Finset.sum_range_succ]; simp [ih]

theorem squeeze_index_lt (c groups k g : Nat) (hdiv : c % groups = 0)
    (hk : k < c / groups) (hg : g < groups) : k * groups + g < c := by
  have h1 : (k + 1) * groups = k * groups + groups := by ring
  have h2 : (k + 1) * groups ≤ (c / groups) * groups :=
    Nat.mul_le_mul_right groups hk
  have h3 : (c / groups) * groups = c :=
    Nat.div_mul_cancel (Nat.dvd_of_mod_eq_zero hdiv)
  omega

theorem channelSqueezeCT_shaped (ct : CTensor) (c h w groups : Nat)
    (hg : 0 < groups) (hdiv : c % groups = 0)
    (hct : ctShaped ct c h w = true) :
    ctShaped (channelSqueezeCT ct groups) (c / groups) h w = true := by
  rw [ctShaped_iff] at hct ⊢
  obtain ⟨hcl, hcp⟩ := hct
  refine ⟨by simp [channelSqueezeCT, hcl], ?_⟩
  intro p hp
  simp only [channelSqueezeCT, List.mem_map, List.mem_range, hcl] at hp
  obtain ⟨k, hk, rfl⟩ := hp
  refine sumPlanes_shaped _ h w (by simp [List.range_eq_nil]; omega) ?_
  intro r hr
  simp only [List.mem_map, List.mem_range] at hr
  obtain ⟨g, hgg, rfl⟩ := hr
  have hidx : k * groups + g < c := squeeze_index_lt c groups k g hdiv hk hgg
  exact hcp _ (getD_mem_of_lt ct [] _ (by omega))

theorem channelSqueezeCT_entry (ct : CTensor) (c h w groups k i j : Nat)
    (hg : 0 < groups) (hdiv : c % groups = 0)
    (hct : ctShaped ct c h w = true) (hk : k < c / groups)
    (hi : i < h) (hj : j < w) :
    (((channelSqueezeCT ct groups).getD k []).getD i []).getD j 0 =
      Finset.sum (Finset.range groups)
        (fun g => ((ct.getD (k * groups + g) []).getD i []).getD j 0) := by
  rw [ctShaped_iff] at hct
  obtain ⟨hcl, hcp⟩ := hct
  have hkk : k < ct.length / groups := by rw [hcl]; exact hk
  rw [show channelSqueezeCT ct groups =
      (List.range (ct.length / groups)).map fun k =>
        sumPlanes ((List.range groups).map fun g =>
          ct.getD (k * groups + g) []) from rfl]
  rw [getD_map_range _ _ k [] hkk]
  have hshapes : ∀ p ∈ (List.range groups).map
      (fun g => ct.getD (k * groups + g) []), planeShaped p h w = true := by
    intro p hp
    simp only [List.mem_map, List.mem_range] at hp
    obtain ⟨g, hgg, rfl⟩ := hp
    have hidx : k * groups + g < c := squeeze_index_lt c groups k g hdiv hk hgg
    exact hcp _ (getD_mem_of_lt ct [] _ (by omega))
  rw [sumPlanes_entry _ h w i j (by simp [List.range_eq_nil]; omega)
    hshapes hi hj]
  rw [List.map_map]
  exact list_range_sum_eq _ groups

theorem channel_squeeze_shape (x : Tensor4) (b c h w groups : Nat)
    (hg : 0 < groups) (hdiv : c % groups = 0)
    (hx : tShaped x b c h w = true) :
    tShaped (channel_squeeze x groups) b (c / groups) h w = true := by
  rw [tShaped_iff] at hx ⊢
  obtain ⟨hxl, hxc⟩ := hx
  refine ⟨by simp [channel_squeeze, hxl], ?_⟩
  intro ct hct
  simp only [channel_squeeze, List.mem_map] at hct
  obtain ⟨ct0, hmem, rfl⟩ := hct
  exact channelSqueezeCT_shaped ct0 c h w groups hg hdiv (hxc ct0 hmem)

theorem channel_squeeze_entry_sum (x : Tensor4) (b c h w groups bi k i j : Nat)
    (hg : 0 < groups) (hdiv : c % groups = 0)
    (hx : tShaped x b c h w = true) (hbi : bi < b) (hk : k < c / groups)
    (hi : i < h) (hj : j < w) :
    entry (channel_squeeze x groups) bi k i j =
      Finset.sum (Finset.range groups)
        (fun g => entry x bi (k * groups + g) i j) := by
  rw [tShaped_iff] at hx
  obtain ⟨hxl, hxc⟩ := hx
  have hblen : bi < x.length := by omega
  have hmap : (channel_squeeze x groups).getD bi [] =
      channelSqueezeCT (x.getD bi []) groups := by
    have hlen2 : bi < (channel_squeeze x groups).length := by
      simp [channel_squeeze]; omega
    rw [List.getD_eq_getElem _ _ hlen2, List.getD_eq_getElem _ _ hblen]
    simp [channel_squeeze]
  have hctm : ctShaped (x.getD bi []) c h w = true :=
    hxc _ (getD_mem_of_lt x [] bi hblen)
  unfold entry
  rw [hmap]
  exact channelSqueezeCT_entry (x.getD bi []) c h w groups k i j
    hg hdiv hctm hk hi hj

/-- First half of the channels of each batch element (stated from the
words of claim C7, for comparison against the code's interleaved sum). -/
def firstHalfChannels (x : Tensor4) : Tensor4 :=
  x.map fun ct => ct.take (ct.length / 2)

/-- Last half of the channels of each batch element (stated from the
words of claim C7). -/
def lastHalfChannels (x : Tensor4) : Tensor4 :=
  x.map fun ct => ct.drop (ct.length / 2)

/-- Scalar multiple of a tensor. -/
def tensorScale (a : Int) (x : Tensor4) : Tensor4 :=
  x.map fun ct => ct.map fun p => p.map fun r => r.map fun v => a * v

/-- Even-indexed channels (positions 0, 2, 4, ...): one representative per
interleaved pair summed by channel_squeeze with groups 2. -/
def evenChannels (x : Tensor4) : Tensor4 :=
  x.map fun ct => (List.range (ct.length / 2)).map fun k => ct.getD (k * 2) []

/-- pairsEqual x: within each batch element, channel 2k equals
channel 2k+1 for every k below half the channel count. -/
def pairsEqual (x : Tensor4) : Bool :=
  x.all fun ct => (List.range (ct.length / 2)).all fun k =>
    ct.getD (k * 2) [] == ct.getD (k * 2 + 1) []

theorem rowAdd_self (r : List Int) : rowAdd r r = r.map fun v => 2 * v := by
  induction r with
  | nil => rfl
  | cons a t ih =>
    show (a + a) :: rowAdd t t = (2 * a) :: (t.map fun v => 2 * v)
    rw [ih, two_mul]

theorem planeAdd_self (p : Plane) :
    planeAdd p p = p.map fun r => r.map fun v => 2 * v := by
  induction p with
  | nil => rfl
  | cons r t ih =>
    show rowAdd r r :: planeAdd t t = _
    rw [ih, rowAdd_self]
    rfl

theorem channelSqueezeCT_pairs (ct : CTensor)
    (hp : ∀ k < ct.length / 2, ct.getD (k * 2) [] = ct.getD (k * 2 + 1) []) :
    channelSqueezeCT ct 2 =
      (List.range (ct.length / 2)).map fun k =>
        (ct.getD (k * 2) []).map fun r => r.map fun v => 2 * v := by
  unfold channelSqueezeCT
  apply List.map_congr_left
  intro k hk
  simp only [List.mem_range] at hk
  have hpair : (List.range 2).map (fun g => ct.getD (k * 2 + g) []) =
      [ct.getD (k * 2) [], ct.getD (k * 2 + 1) []] := rfl
  rw [hpair]
  show planeAdd (ct.getD (k * 2) []) (ct.getD (k * 2 + 1) []) = _
  rw [← hp k hk, planeAdd_self]

/-- Claim C3: for every input tensor x of shape (batch, C, H, W) with C
divisible by groups, channel_squeeze(x, groups) returns a tensor of shape
(batch, C/groups, H, W) whose output channel k equals the elementwise sum
over g < groups of input channel k*groups + g, i.e. the sum of the groups
under the interleaved partition in which channel c belongs to group
c mod groups. -/
theorem channel_squeeze_shape_and_sum (x : Tensor4) (b c h w groups : Nat)
    (hg : 0 < groups) (hdiv : c % groups = 0)
    (hx : tShaped x b c h w = true) :
    tShaped (channel_squeeze x groups) b (c / groups) h w = true ∧
    ∀ bi k i j, bi < b → k < c / groups → i < h → j < w →
      entry (channel_squeeze x groups) bi k i j =
        Finset.sum (Finset.range groups)
          (fun g => entry x bi (k * groups + g) i j) :=
  ⟨channel_squeeze_shape x b c h w groups hg hdiv hx,
   fun bi k i j hbi hk hi hj =>
     channel_squeeze_entry_sum x b c h w groups bi k i j
       hg hdiv hx hbi hk hi hj⟩

/-- Concrete (1, 4, 1, 2) tensor used as witness input for claim C3. -/
def c3WitnessX : Tensor4 := [[[[1, 2]], [[3, 4]], [[10, 20]], [[30, 40]]]]

/-- Witness for claim C3 at a concrete (1, 4, 1, 2) input with groups 2. -/
theorem channel_squeeze_shape_and_sum_witness :
    tShaped (channel_squeeze c3WitnessX 2) 1 (4 / 2) 1 2 = true ∧
    entry (channel_squeeze c3WitnessX 2) 0 1 0 1 =
      Finset.sum (Finset.range 2)
        (fun g => entry c3WitnessX 0 (1 * 2 + g) 0 1) :=
  ⟨(channel_squeeze_shape_and_sum c3WitnessX 1 4 1 2 2 (by decide) (by decide)
      (by decide)).1,
   (channel_squeeze_shape_and_sum c3WitnessX 1 4 1 2 2 (by decide) (by decide)
      (by decide)).2 0 1 0 1 (by decide) (by decide) (by decide) (by decide)⟩

/-- Concrete (1, 4, 1, 1) tensor whose first two channels equal its last
two channels but whose interleaved pairs differ. -/
def c7CounterX : Tensor4 := [[[[1]], [[2]], [[1]], [[2]]]]

/-- Claim C7 counterexample: on a (1, 4, 1, 1) tensor whose first half of
channels equals its last half, channel_squeeze with groups 2 is NOT twice
either half: the code sums interleaved pairs (channels 2k and 2k+1), not
contiguous halves. -/
theorem channel_squeeze_halves_counterexample :
    firstHalfChannels c7CounterX = lastHalfChannels c7CounterX ∧
    channel_squeeze c7CounterX 2 ≠
      tensorScale 2 (firstHalfChannels c7CounterX) ∧
    channel_squeeze c7CounterX 2 ≠
      tensorScale 2 (lastHalfChannels c7CounterX) := by
  decide

/-- Claim C7 (amended): for every tensor x whose channel 2k equals
channel 2k+1 for each interleaved pair (and of shape (b, 2n, h, w)),
channel_squeeze(x, 2) equals 2 times the even-indexed channel subtensor,
and has shape (b, n, h, w). -/
theorem channel_squeeze_interleaved_pairs_doubling (x : Tensor4)
    (b n h w : Nat) (hp : pairsEqual x = true)
    (hx : tShaped x b (2 * n) h w = true) :
    channel_squeeze x 2 = tensorScale 2 (evenChannels x) ∧
    tShaped (channel_squeeze x 2) b n h w = true := by
  constructor
  · unfold channel_squeeze tensorScale evenChannels
    rw [List.map_map]
    apply List.map_congr_left
    intro ct hct
    simp only [pairsEqual, List.all_eq_true] at hp
    have hpc : ∀ k < ct.length / 2,
        ct.getD (k * 2) [] = ct.getD (k * 2 + 1) [] := by
      intro k hk
      have := hp ct hct k (List.mem_range.mpr hk)
      exact eq_of_beq this
    rw [channelSqueezeCT_pairs ct hpc]
    simp [Function.comp, List.map_map]
  · have hs := channel_squeeze_shape x b (2 * n) h w 2 (by norm_num)
      (by omega) hx
    have h2 : 2 * n / 2 = n := by omega
    rwa [h2] at hs

/-- Concrete (1, 4, 1, 1) tensor with equal interleaved channel pairs. -/
def c7WitnessX : Tensor4 := [[[[1]], [[1]], [[5]], [[5]]]]

/-- Witness for amended claim C7 at a concrete input. -/
theorem channel_squeeze_interleaved_pairs_doubling_witness :
    channel_squeeze c7WitnessX 2 = tensorScale 2 (evenChannels c7WitnessX) ∧
    tShaped (channel_squeeze c7WitnessX 2) 1 2 1 1 = true :=
  channel_squeeze_interleaved_pairs_doubling c7WitnessX 1 2 1 1
    (by decide) (by decide)

/-- Configuration of an external pre-activated convolution block
(common.py pre_conv1x1_block and pre_conv3x3_block are out-of-scope
collaborators; only the channel, stride, padding and dilation arguments
the FishNet code passes to them are recorded). -/
structure ConvBlockCfg where
  in_channels : Nat
  out_channels : Nat
  stride : Nat
  padding : Nat
  dilation : Nat
deriving DecidableEq

/-- Arguments passed by a pre_conv1x1_block call site. -/
def preConv1x1Cfg (ic oc stride : Nat) : ConvBlockCfg :=
  { in_channels := ic, out_channels := oc, stride := stride,
    padding := 0, dilation := 1 }

/-- Arguments passed by a pre_conv3x3_block call site. -/
def preConv3x3Cfg (ic oc stride padding dilation : Nat) : ConvBlockCfg :=
  { in_channels := ic, out_channels := oc, stride := stride,
    padding := padding, dilation := dilation }

/-- Configuration built by FishBottleneck (fishnet.py lines 104-123). -/
structure FishBottleneckCfg where
  conv1 : ConvBlockCfg
  conv2 : ConvBlockCfg
  conv3 : ConvBlockCfg
deriving DecidableEq

/-- FishBottleneck construction (fishnet.py lines 104-123):
mid_channels = out_channels // 4 (Nat floor division, no divisibility
check), then the three pre-activated convolution blocks 1x1 -> 3x3 -> 1x1
with the middle block carrying stride and dilation (padding = dilation). -/
def fishBottleneckInit (ic oc stride dilation : Nat) :
    Except PyErr FishBottleneckCfg :=
  .ok { conv1 := preConv1x1Cfg ic (oc / 4) 1,
        conv2 := preConv3x3Cfg (oc / 4) (oc / 4) stride dilation dilation,
        conv3 := preConv1x1Cfg (oc / 4) oc 1 }

/-- ChannelSqueeze construction (fishnet.py lines 51-57): raises
ValueError unless channels is divisible by groups; stores groups. -/
def channelSqueezeInit (channels groups : Nat) : Except PyErr Nat :=
  if channels % groups != 0 then
    .error (.valueError "channels must be divisible by groups")
  else .ok groups

/-- Configuration built by FishBlock (fishnet.py lines 149-173): the two
decision flags, the bottleneck body, and the optional squeeze groups or
projection convolution stored by the chosen branch. -/
structure FishBlockCfg where
  squeeze : Bool
  resize_identity : Bool
  body : FishBottleneckCfg
  c_squeeze : Option Nat
  identity_conv : Option ConvBlockCfg
deriving DecidableEq

/-- FishBlock construction (fishnet.py lines 149-173): computes
resize_identity, builds the body, then, when squeeze is set, asserts
in_channels // 2 == out_channels (floor division, AssertionError on
failure) and builds ChannelSqueeze(in_channels, groups=2); otherwise
builds the projection shortcut when resize_identity holds. -/
def fishBlockInit (ic oc stride dilation : Nat) (squeeze : Bool) :
    Except PyErr FishBlockCfg :=
  let resize := (ic != oc) || (stride != 1)
  match fishBottleneckInit ic oc stride dilation with
  | .error e => .error e
  | .ok body =>
    if squeeze then
      if ic / 2 != oc then
        .error (.assertionError "in_channels floordiv 2 must equal out_channels")
      else
        match channelSqueezeInit ic 2 with
        | .error e => .error e
        | .ok g =>
          .ok { squeeze := true, resize_identity := resize, body := body,
                c_squeeze := some g, identity_conv := none }
    else if resize then
      .ok { squeeze := false, resize_identity := resize, body := body,
            c_squeeze := none,
            identity_conv := some (preConv1x1Cfg ic oc stride) }
    else
      .ok { squeeze := false, resize_identity := resize, body := body,
            c_squeeze := none, identity_conv := none }

/-- FishBlock forward (fishnet.py lines 175-184): the shortcut branch is
chosen from the stored flags, then the body output and the shortcut are
added.  The body and the learned projection are external transforms and
are passed in as functions; the none fallback in the squeeze branch is
unreachable for configurations produced by fishBlockInit. -/
def fishBlockForward (cfg : FishBlockCfg) (bodyF idConvF : Tensor4 → Tensor4)
    (x : Tensor4) : Tensor4 :=
  let identity :=
    if cfg.squeeze then
      match cfg.c_squeeze with
      | some g => channel_squeeze x g
      | none => x
    else if cfg.resize_identity then idConvF x
    else x
  tensorAdd (bodyF x) identity

/-- Claim C4: for every successfully constructed FishBlock, forward(x) is
body(x) + shortcut(x), with the shortcut chosen by the mutually exclusive
3-way construction-time policy: squeeze gives ChannelSqueeze with
groups 2 (requiring in_channels = 2 * out_channels for construction to
succeed); otherwise a changed channel count or stride gives a learned
pre-activated 1x1 projection with the given stride; otherwise the
identity pass-through. -/
theorem fishBlock_shortcut_policy (ic oc stride dilation : Nat)
    (squeeze : Bool) (cfg : FishBlockCfg)
    (h : fishBlockInit ic oc stride dilation squeeze = .ok cfg) :
    (squeeze = true → cfg.c_squeeze = some 2 ∧ cfg.identity_conv = none ∧
      ic = 2 * oc ∧
      ∀ bodyF idF x, fishBlockForward cfg bodyF idF x =
        tensorAdd (bodyF x) (channel_squeeze x 2)) ∧
    (squeeze = false → (ic ≠ oc ∨ stride ≠ 1) →
      cfg.identity_conv = some (preConv1x1Cfg ic oc stride) ∧
      cfg.c_squeeze = none ∧
      ∀ bodyF idF x, fishBlockForward cfg bodyF idF x =
        tensorAdd (bodyF x) (idF x)) ∧
    (squeeze = false → ic = oc → stride = 1 →
      cfg.identity_conv = none ∧ cfg.c_squeeze = none ∧
      ∀ bodyF idF x, fishBlockForward cfg bodyF idF x =
        tensorAdd (bodyF x) x) := by
  cases squeeze with
  | true =>
    refine ⟨fun _ => ?_, ?_, ?_⟩
    · unfold fishBlockInit fishBottleneckInit channelSqueezeInit at h
      by_cases hq : ic / 2 = oc
      · simp only [hq, bne_self_eq_false, Bool.false_eq_true, if_false,
          if_true] at h
        by_cases he : ic % 2 = 0
        · simp only [he, if_true, if_false] at h
          rw [show ((0 : Nat) != 0) = false from rfl] at h
          simp only [Bool.false_eq_true, if_false] at h
          cases h
          refine ⟨rfl, rfl, by omega, ?_⟩
          intro bodyF idF x
          rfl
        · exfalso
          have hne : (ic % 2 != 0) = true := bne_iff_ne.mpr he
          simp [hne] at h
      · exfalso
        have hne : (ic / 2 != oc) = true := bne_iff_ne.mpr hq
        simp [hne] at h
    · intro hf
      exact absurd hf (by simp)
    · intro hf
      exact absurd hf (by simp)
  | false =>
    refine ⟨?_, fun _ hr => ?_, fun _ hic hs => ?_⟩
    · intro hf
      exact absurd hf (by simp)
    · unfold fishBlockInit fishBottleneckInit at h
      have hres : (ic != oc || stride != 1) = true := by
        rcases hr with h1 | h1 <;> simp [bne_iff_ne.mpr h1]
      simp only [Bool.false_eq_true, if_false, hres, if_true] at h
      cases h
      exact ⟨rfl, rfl, fun bodyF idF x => rfl⟩
    · unfold fishBlockInit fishBottleneckInit at h
      have hres : (ic != oc || stride != 1) = false := by
        subst hic hs
        simp
      simp only [Bool.false_eq_true, if_false, hres] at h
      cases h
      exact ⟨rfl, rfl, fun bodyF idF x => rfl⟩

/-- Concrete input tensor for the FishBlock witness: shape (1, 8, 1, 2). -/
def c4WitnessX : Tensor4 :=
  [[[[1, 2]], [[3, 4]], [[5, 6]], [[7, 8]],
    [[9, 10]], [[11, 12]], [[13, 14]], [[15, 16]]]]

/-- Witness for claim C4: a squeeze-mode FishBlock with in_channels 8 and
out_channels 4 constructs successfully, and its forward adds the body
output to the groups-2 channel squeeze of the input. -/
theorem fishBlock_shortcut_policy_witness :
    fishBlockForward
        { squeeze := true, resize_identity := true,
          body := { conv1 := preConv1x1Cfg 8 1 1,
                    conv2 := preConv3x3Cfg 1 1 1 1 1,
                    conv3 := preConv1x1Cfg 1 4 1 },
          c_squeeze := some 2, identity_conv := none }
        id id c4WitnessX =
      tensorAdd (id c4WitnessX) (channel_squeeze c4WitnessX 2) :=
  ((fishBlock_shortcut_policy 8 4 1 1 true _ (by rfl)).1 rfl).2.2.2 id id
    c4WitnessX

/-- Claim C8 counterexample: out_channels 6 is not divisible by 4, yet
FishBottleneck construction succeeds (fishnet.py line 110 computes
mid_channels = out_channels // 4 with no check), silently flooring the
mid width to 1. -/
theorem fishBottleneck_no_div4_check_counterexample :
    6 % 4 ≠ 0 ∧
    fishBottleneckInit 64 6 1 1 =
      .ok { conv1 := preConv1x1Cfg 64 1 1,
            conv2 := preConv3x3Cfg 1 1 1 1 1,
            conv3 := preConv1x1Cfg 1 6 1 } :=
  ⟨by decide, rfl⟩

/-- Claim C8 (amended): for every out_channels not divisible by 4,
FishBottleneck construction succeeds rather than raising, silently using
the floored mid-channel width out_channels // 4. -/
theorem fishBottleneck_floors_mid_channels (ic oc stride dilation : Nat)
    (_h : oc % 4 ≠ 0) :
    fishBottleneckInit ic oc stride dilation =
      .ok { conv1 := preConv1x1Cfg ic (oc / 4) 1,
            conv2 := preConv3x3Cfg (oc / 4) (oc / 4) stride dilation dilation,
            conv3 := preConv1x1Cfg (oc / 4) oc 1 } := rfl

/-- Witness for amended claim C8 at out_channels 6. -/
theorem fishBottleneck_floors_mid_channels_witness :
    6 % 4 ≠ 0 ∧
    fishBottleneckInit 8 6 2 1 =
      .ok { conv1 := preConv1x1Cfg 8 (6 / 4) 1,
            conv2 := preConv3x3Cfg (6 / 4) (6 / 4) 2 1 1,
            conv3 := preConv1x1Cfg (6 / 4) 6 1 } :=
  ⟨by decide, fishBottleneck_floors_mid_channels 8 6 2 1 (by decide)⟩

/-- Claim C10 counterexample: in_channels 9 and out_channels 4 satisfy
the floor-division squeeze check 9 // 2 == 4, yet FishBlock construction
with squeeze does NOT succeed: the subsequent
ChannelSqueeze(channels=9, groups=2) constructor raises ValueError. -/
theorem fishBlock_squeeze_odd_in_channels_fails :
    9 / 2 = 4 ∧
    fishBlockInit 9 4 1 1 true =
      .error (.valueError "channels must be divisible by groups") :=
  ⟨rfl, rfl⟩

/-- Claim C10 (amended): for every pair with in_channels // 2 equal to
out_channels under floor division, the squeeze-mode assertion passes, but
construction as a whole succeeds only for even in_channels (that is,
in_channels = 2 * out_channels); for odd in_channels = 2 * out_channels
+ 1 the ChannelSqueeze divisibility check raises ValueError. -/
theorem fishBlock_squeeze_floor_check_parity (ic oc stride dilation : Nat)
    (h : ic / 2 = oc) :
    (ic % 2 = 1 → fishBlockInit ic oc stride dilation true =
      .error (.valueError "channels must be divisible by groups")) ∧
    (ic % 2 = 0 → fishBlockInit ic oc stride dilation true =
      .ok { squeeze := true,
            resize_identity := ((ic != oc) || (stride != 1)),
            body := { conv1 := preConv1x1Cfg ic (oc / 4) 1,
                      conv2 := preConv3x3Cfg (oc / 4) (oc / 4) stride
                        dilation dilation,
                      conv3 := preConv1x1Cfg (oc / 4) oc 1 },
            c_squeeze := some 2, identity_conv := none }) := by
  constructor
  · intro hodd
    unfold fishBlockInit fishBottleneckInit channelSqueezeInit
    simp only [h, bne_self_eq_false, Bool.false_eq_true, if_false, if_true]
    have hb : (ic % 2 != 0) = true := by rw [hodd]; rfl
    simp [hb]
  · intro heven
    unfold fishBlockInit fishBottleneckInit channelSqueezeInit
    simp only [h, bne_self_eq_false, Bool.false_eq_true, if_false, if_true]
    simp [heven]

/-- Witness for amended claim C10 at in_channels 9, out_channels 4. -/
theorem fishBlock_squeeze_floor_check_parity_witness :
    9 / 2 = 4 ∧ 9 % 2 = 1 ∧
    fishBlockInit 9 4 2 1 true =
      .error (.valueError "channels must be divisible by groups") :=
  ⟨by decide, by decide,
   (fishBlock_squeeze_floor_check_parity 9 4 2 1 (by decide)).1 (by decide)⟩

/-- Nearest-neighbour upsampling of one row by an integer scale factor. -/
def upsampleRow (r : List Int) (s : Nat) : List Int :=
  r.flatMap fun a => List.replicate s a

/-- Nearest-neighbour upsampling of one plane: every row is widened by
the scale factor and then repeated the scale factor times. -/
def upsamplePlane (p : Plane) (s : Nat) : Plane :=
  (p.map fun r => upsampleRow r s).flatMap fun r => List.replicate s r

/-- Nearest-neighbour upsampling of a 4D tensor: batch and channel axes
unchanged, height and width multiplied by the scale factor. -/
def upsampleNearest (x : Tensor4) (s : Nat) : Tensor4 :=
  x.map fun ct => ct.map fun p => upsamplePlane p s

/-- Configuration stored by InterpolationBlock (fishnet.py lines 74-79):
the scale factor and the mode, whose default is nearest. -/
structure InterpolationBlockCfg where
  scale_factor : Nat
  mode : String
deriving DecidableEq

/-- InterpolationBlock.forward (fishnet.py lines 81-86) calls
torch.nn.functional.interpolate with align_corners=True unconditionally.
Torch semantics (external library): passing align_corners together with
mode nearest or area raises ValueError; without that clash, mode nearest
computes nearest-neighbour upsampling by the scale factor.  Modes other
than nearest are never instantiated by this file and are not
distinguished by this model. -/
def interpolationBlockForward (cfg : InterpolationBlockCfg) (x : Tensor4) :
    Except PyErr Tensor4 :=
  if cfg.mode == "nearest" || cfg.mode == "area" then
    .error (.valueError
      "align_corners option can only be set with the interpolating modes linear bilinear bicubic trilinear")
  else
    .ok (upsampleNearest x cfg.scale_factor)

/-- UpUnit.forward (fishnet.py lines 229-244): the chained FishBlocks
(learned transforms, passed as functions) followed by
InterpolationBlock(scale_factor=2) with the default nearest mode. -/
def upUnitForward (blockFs : List (Tensor4 → Tensor4)) (x : Tensor4) :
    Except PyErr Tensor4 :=
  interpolationBlockForward { scale_factor := 2, mode := "nearest" }
    (blockFs.foldl (fun t f => f t) x)

theorem upsampleRow_length (r : List Int) (s : Nat) :
    (upsampleRow r s).length = r.length * s := by
  induction r with
  | nil => simp [upsampleRow]
  | cons a t ih =>
    simp only [upsampleRow, List.flatMap_cons] at ih ⊢
    simp [ih]
    ring

theorem upsamplePlane_shaped (p : Plane) (h w s : Nat)
    (hp : planeShaped p h w = true) :
    planeShaped (upsamplePlane p s) (h * s) (w * s) = true := by
  rw [planeShaped_iff] at hp ⊢
  obtain ⟨hl, hr⟩ := hp
  constructor
  · simp only [upsamplePlane, List.length_flatMap, List.map_map]
    have hconst : ((List.length ∘ fun r => List.replicate s r) ∘
        fun r : List Int => upsampleRow r s) = fun _ => s := by
      funext r
      simp
    rw [hconst, List.map_const', List.sum_replicate, smul_eq_mul, hl]
  · intro r hrm
    simp only [upsamplePlane, List.mem_flatMap, List.mem_map] at hrm
    obtain ⟨row, ⟨r0, hr0, rfl⟩, hrep⟩ := hrm
    have := List.eq_of_mem_replicate hrep
    subst this
    rw [upsampleRow_length, hr r0 hr0]

/-- Claim C6: the trailing interpolation of every UpUnit raises
ValueError on every input, because the code passes align_corners=True
together with the default nearest mode; the intended nearest upsampling
(modelled by upsampleNearest) would instead double height and width. -/
theorem upUnit_forward_raises_valueerror
    (blockFs : List (Tensor4 → Tensor4)) (x : Tensor4) :
    upUnitForward blockFs x =
      .error (.valueError
        "align_corners option can only be set with the interpolating modes linear bilinear bicubic trilinear") ∧
    ∀ b c h w, tShaped x b c h w = true →
      tShaped (upsampleNearest x 2) b c (h * 2) (w * 2) = true := by
  constructor
  · rfl
  · intro b c h w hx
    rw [tShaped_iff] at hx ⊢
    obtain ⟨hl, hc⟩ := hx
    refine ⟨by simp [upsampleNearest, hl], ?_⟩
    intro ct hct
    simp only [upsampleNearest, List.mem_map] at hct
    obtain ⟨ct0, hmem, rfl⟩ := hct
    have hcs := hc ct0 hmem
    rw [ctShaped_iff] at hcs ⊢
    obtain ⟨hcl, hcp⟩ := hcs
    refine ⟨by simp [hcl], ?_⟩
    intro pl hpl
    simp only [List.mem_map] at hpl
    obtain ⟨p0, hp0, rfl⟩ := hpl
    exact upsamplePlane_shaped p0 h w 2 (hcp p0 hp0)

/-- A Python sequence of per-stage channel lists as handled by
get_fishnet and FishNet: either a materialized list or a generator
object (the inner comprehensions at fishnet.py lines 398-401 use
parentheses and therefore produce generators, not lists). -/
structure PyChanSeq where
  isGen : Bool
  items : List (List Nat)
deriving DecidableEq

/-- Python len() applied to a PyChanSeq: a generator object has no
len(), so len() raises TypeError on it. -/
def pyLen (s : PyChanSeq) : Except PyErr Nat :=
  if s.isGen then .error (.typeError "object of type generator has no len")
  else .ok s.items.length

/-- Python indexing of a PyChanSeq: a generator object is not
subscriptable, and an out-of-range index raises IndexError. -/
def pySeqIndex (s : PyChanSeq) (i : Nat) : Except PyErr (List Nat) :=
  if s.isGen then
    .error (.typeError "generator object is not subscriptable")
  else
    match s.items.get? i with
    | some v => .ok v
    | none => .error (.indexError "list index out of range")

/-- Python indexing of an ordinary list. -/
def pyListIndex {α : Type} (l : List α) (i : Nat) : Except PyErr α :=
  match l.get? i with
  | some v => .ok v
  | none => .error (.indexError "list index out of range")

/-- direct_layers for the 150-block variant (fishnet.py line 391). -/
def direct_layers : List (List Nat) := [[2, 4, 8], [2, 2, 2], [2, 2, 4]]

/-- skip_layers for the 150-block variant (fishnet.py line 392). -/
def skip_layers : List (List Nat) := [[2, 2, 2, 2], [2, 2, 2, 2]]

/-- direct_channels_per_layers for the 150-block variant (line 393). -/
def direct_channels_per_layers : List (List Nat) :=
  [[128, 256, 512], [512, 512, 384], [256, 320, 832]]

/-- skip_channels_per_layers for the 150-block variant (line 394). -/
def skip_channels_per_layers : List (List Nat) :=
  [[64, 128, 256, 512], [64, 128, 256, 512]]

/-- The channel-schedule expression at fishnet.py lines 398-401: an
outer list comprehension over zipped (channels, layers) rows whose inner
element is a generator expression (parenthesized) yielding the per-stage
list [cij] * lij for each (cij, lij).  The mkGen flag records whether the
inner element is materialized (False models replacing the inner
parentheses with brackets). -/
def mkChannelSeqs (mkGen : Bool) (channelsPerLayers layers : List (List Nat)) :
    List PyChanSeq :=
  (channelsPerLayers.zip layers).map fun cl =>
    { isGen := mkGen,
      items := (cl.1.zip cl.2).map fun pair => List.replicate pair.2 pair.1 }

/-- A recorded constructor call for a stage unit: the target sequence,
the class called, and the keyword arguments passed. -/
structure UnitCall where
  seqName : String
  ctorName : String
  kwargs : List (String × Nat)
deriving DecidableEq

/-- The constructor parameters shared by DownUnit, UpUnit and SkipUnit
(fishnet.py lines 198-200, 229-231, 258-260): in_channels and
out_channels_list. -/
def unitCtorParams : List String := ["in_channels", "out_channels_list"]

/-- Python keyword-call protocol for the unit constructors: an argument
name outside the parameter list raises TypeError, as does a missing
required parameter. -/
def callUnitCtor (c : UnitCall) : Except PyErr UnitCall :=
  match c.kwargs.find? (fun kv => !(unitCtorParams.contains kv.1)) with
  | some kv =>
    .error (.typeError ("got an unexpected keyword argument " ++ kv.1))
  | none =>
    match unitCtorParams.find?
        (fun p => !((c.kwargs.map Prod.fst).contains p)) with
    | some p => .error (.typeError ("missing required argument " ++ p))
    | none => .ok c

/-- The call at fishnet.py lines 321-324: the unit added to skip1_seq is
a DownUnit, called with keywords in_channels, out_channels and layers. -/
def skip1StageCall (ic c0 layers : Nat) : UnitCall :=
  { seqName := "skip1", ctorName := "DownUnit",
    kwargs := [("in_channels", ic), ("out_channels", c0),
               ("layers", layers)] }

/-- The call at fishnet.py lines 327-330: the unit added to down1_seq is
a DownUnit, called with keywords in_channels, out_channels and layers. -/
def down1StageCall (ic c0 layers : Nat) : UnitCall :=
  { seqName := "down1", ctorName := "DownUnit",
    kwargs := [("in_channels", ic), ("out_channels", c0),
               ("layers", layers)] }

/-- One iteration of the stage loop at fishnet.py lines 319-333: index
the skip schedule, evaluate the keyword arguments, perform the skip-side
constructor call, and for the first depth iterations also the down-side
constructor call, threading in_channels. -/
def fishNetStage (direct skip : List PyChanSeq) (depth i : Nat)
    (st : Nat × List UnitCall) : Except PyErr (Nat × List UnitCall) := do
  let skipSeq0 ← pyListIndex skip 0
  let skipCh ← pySeqIndex skipSeq0 i
  let sc0 ← pyListIndex skipCh 0
  let scall ← callUnitCtor (skip1StageCall st.1 sc0 skipCh.length)
  if i < depth then
    let directSeq0 ← pyListIndex direct 0
    let dCh ← pySeqIndex directSeq0 i
    let dc0 ← pyListIndex dCh 0
    let dcall ← callUnitCtor (down1StageCall st.1 dc0 dCh.length)
    pure (dc0, st.2 ++ [scall, dcall])
  else
    pure (sc0, st.2 ++ [scall])

/-- Result of a completed FishNet construction: the recorded unit calls,
the AvgPool2d kernel size of the final pool (7, stride 1), and the
channel counts of the final 1x1 convolution. -/
structure FishNetResult where
  unitCalls : List UnitCall
  finalPoolKernel : Nat
  finalConvInChannels : Nat
  numClasses : Nat
deriving DecidableEq

/-- FishNet.__init__ (fishnet.py lines 295-352): after the external
SEInitBlock stem, takes depth = len(direct_channels[0]) (line 312), runs
the stage loop for depth + 1 iterations, leaves up_seq empty, hands the
sequences to the external SesquialteralHourglass, then appends
AvgPool2d(kernel_size=7, stride=1) and conv1x1(in_channels,
num_classes). -/
def fishNetInit (direct skip : List PyChanSeq)
    (initBlockChannels numClasses : Nat) : Except PyErr FishNetResult := do
  let d0 ← pyListIndex direct 0
  let depth ← pyLen d0
  let st ← (List.range (depth + 1)).foldlM
    (fun st i => fishNetStage direct skip depth i st)
    (initBlockChannels, ([] : List UnitCall))
  pure { unitCalls := st.2, finalPoolKernel := 7,
         finalConvInChannels := st.1, numClasses := numClasses }

/-- get_fishnet (fishnet.py lines 368-420) with pretrained False: blocks
99 raises ValueError, blocks 150 builds the generator-based channel
schedules and constructs FishNet with init_block_channels 64 and
num_classes 1000, and any other value raises ValueError. -/
def getFishnet (blocks : Nat) : Except PyErr FishNetResult :=
  if blocks = 99 then
    .error (.valueError
      ("Unsupported FishNet with number of blocks: " ++ toString blocks))
  else if blocks = 150 then
    fishNetInit (mkChannelSeqs true direct_channels_per_layers direct_layers)
      (mkChannelSeqs true skip_channels_per_layers skip_layers) 64 1000
  else
    .error (.valueError
      ("Unsupported FishNet with number of blocks: " ++ toString blocks))

/-- Claim C1 (code evaluated at the failing input): in FishNet.__init__
the unit added to the skip pathway sequence is a DownUnit, not a
SkipUnit, and it is called with keywords (in_channels, out_channels,
layers) rather than (in_channels, out_channels_list); consequently
construction with the materialized 150-variant schedule raises TypeError
at the first stage instead of building the alternating skip/down chain,
pooling and classifier. -/
theorem fishnet_skip_pathway_downunit_bad_kwargs :
    (skip1StageCall 64 64 2).ctorName = "DownUnit" ∧
    (skip1StageCall 64 64 2).kwargs.map Prod.fst =
      ["in_channels", "out_channels", "layers"] ∧
    callUnitCtor (skip1StageCall 64 64 2) =
      .error (.typeError "got an unexpected keyword argument out_channels") ∧
    fishNetInit
        (mkChannelSeqs false direct_channels_per_layers direct_layers)
        (mkChannelSeqs false skip_channels_per_layers skip_layers) 64 1000 =
      .error (.typeError "got an unexpected keyword argument out_channels") :=
  ⟨rfl, rfl, rfl, rfl⟩

/-- Claim C2 (code evaluated at the failing input): get_fishnet with
blocks 150 does not build a model at all: FishNet.__init__ immediately
raises TypeError at len(direct_channels[0]) because the channel
schedules built at lines 398-401 are generator objects. -/
theorem fishnet150_construction_raises_typeerror :
    getFishnet 150 =
      .error (.typeError "object of type generator has no len") := rfl

/-- Claim C5 (code evaluated at the failing input): the content of each
generated per-stage channel list is the stage width replicated exactly
the configured layer count times (shown by the explicit materialized
schedules), but the generator objects produced at lines 398-401 support
neither the len query at line 312 nor the indexing at line 320. -/
theorem fishnet150_schedule_content_but_len_fails :
    ((mkChannelSeqs true direct_channels_per_layers direct_layers).map
        fun s => s.items) =
      [[[128, 128], [256, 256, 256, 256],
        [512, 512, 512, 512, 512, 512, 512, 512]],
       [[512, 512], [512, 512], [384, 384]],
       [[256, 256], [320, 320], [832, 832, 832, 832]]] ∧
    ((mkChannelSeqs true skip_channels_per_layers skip_layers).map
        fun s => s.items) =
      [[[64, 64], [128, 128], [256, 256], [512, 512]],
       [[64, 64], [128, 128], [256, 256], [512, 512]]] ∧
    pyLen ((mkChannelSeqs true direct_channels_per_layers
        direct_layers).getD 0 { isGen := false, items := [] }) =
      .error (.typeError "object of type generator has no len") ∧
    pySeqIndex ((mkChannelSeqs true skip_channels_per_layers
        skip_layers).getD 0 { isGen := false, items := [] }) 0 =
      .error (.typeError "generator object is not subscriptable") :=
  ⟨rfl, rfl, rfl, rfl⟩

/-- Claim C9 counterexample: the supported variant code 150 also makes
get_fishnet raise, and with an error different from the descriptive
unsupported-variant ValueError, so the unsupported-variant check is not
the only error path of the function. -/
theorem getFishnet_supported_code_also_errors :
    (getFishnet 150).isOk = false ∧
    getFishnet 150 ≠ .error (.valueError
      ("Unsupported FishNet with number of blocks: " ++
        toString (150 : Nat))) := by
  constructor
  · rfl
  · intro h
    have hg : getFishnet 150 =
        .error (.typeError "object of type generator has no len") := rfl
    rw [hg] at h
    exact PyErr.noConfusion (Except.error.inj h)

/-- Claim C9 (amended): for every variant code other than 150,
get_fishnet raises the descriptive unsupported-variant ValueError naming
the code, before building anything; in particular the reserved code 99
bound by the named builder fishnet99 raises it.  This is however not the
only error path of the function: the supported code 150 currently also
raises, during model construction. -/
theorem getFishnet_unsupported_raises (blocks : Nat) (h : blocks ≠ 150) :
    getFishnet blocks =
      .error (.valueError
        ("Unsupported FishNet with number of blocks: " ++
          toString blocks)) := by
  unfold getFishnet
  by_cases h99 : blocks = 99
  · simp [h99]
  · simp [h99, h]

/-- Witness for amended claim C9 at the reserved code 99. -/
theorem getFishnet_unsupported_raises_witness :
    getFishnet 99 =
      .error (.valueError
        ("Unsupported FishNet with number of blocks: " ++
          toString (99 : Nat))) :=
  getFishnet_unsupported_raises 99 (by decide)

/-- Concrete (1, 1, 2, 2) tensor used as witness input for claim C6. -/
def c6WitnessX : Tensor4 := [[[[1, 2], [3, 4]]]]

/-- Witness for claim C6 at a concrete input and an empty block chain. -/
theorem upUnit_forward_raises_valueerror_witness :
    upUnitForward [] c6WitnessX =
      .error (.valueError
        "align_corners option can only be set with the interpolating modes linear bilinear bicubic trilinear") ∧
    tShaped (upsampleNearest c6WitnessX 2) 1 1 (2 * 2) (2 * 2) = true :=
  ⟨(upUnit_forward_raises_valueerror [] c6WitnessX).1,
   (upUnit_forward_raises_valueerror [] c6WitnessX).2 1 1 2 2 (by decide)⟩
